import Mathlib

/-!
# Verification of `react-outside-click-listener`

Shallow embedding of `src/OutsideClickListener/OutsideClickListener.tsx`.

The DOM is modelled as follows: a node carries an identity (`nid`) and a tag
name; an `Element` is represented by its inclusive ancestor chain, head first
(the node itself, then its parent, then the grandparent, up to the root).
`el.parentElement` is therefore the tail of the list (when nonempty), and
`a.contains(b)` holds exactly when `a` appears among the inclusive ancestor
chains reachable from `b`, i.e. when `a` is a suffix of `b`.  Well-formed
elements are nonempty lists; the `[]` cases below are unreachable junk.

Host tree-query primitives that the spec treats as external collaborators
(CSS selector matching, `document.getElementById`, user-supplied ignore
predicates) are supplied by an explicit environment `Env`.
-/

namespace OutsideClick

/-- Identity and tag of one DOM node. -/
structure NodeData where
  nid : Nat
  tag : String
deriving DecidableEq, Repr

/-- An element, as its inclusive ancestor chain (itself first, root last). -/
abbrev Element := List NodeData

/-- `contains a b` models the DOM call `a.contains(b)`: `b` is `a` itself or a
descendant of `a`, i.e. `a` occurs on `b`'s inclusive ancestor chain. -/
def contains (a : Element) : Element → Bool
  | [] => decide (a = ([] : Element))
  | x :: rest => decide (a = x :: rest) || contains a rest

/-- A JavaScript value as it flows out of `getNode`: an `Element`, `null`, or
(through the unsound `node as Element` cast) a React ref object returned
unchanged. -/
inductive JsValue where
  | elem (e : Element)
  | jsNull
  | refObj (current : Option Element)
deriving DecidableEq, Repr

/-- The loosely-typed reference accepted by `topNode` / `ignoreTopNode`:
an id string, a `React.RefObject` (with its captured `current`), or a node. -/
inductive NodeRef where
  | str (s : String)
  | ref (current : Option Element)
  | elem (e : Element)
deriving DecidableEq, Repr

/-- JavaScript truthiness of a `NodeRef` value, as used by the guards
`topNode ? ... : ...` and `if (eventSourceNode && topNode)`:
the empty string is falsy, every object is truthy. -/
def NodeRef.truthy : NodeRef → Bool
  | .str s => !s.isEmpty
  | _ => true

/-- The `HtmlTagSelectorMap | string` argument of `findUp`: either a CSS
selector string or a tag → optional-refining-selector map (a `none` value
models a key present with a `null`/`undefined` value). -/
inductive MapOrSelectors where
  | selectors (s : String)
  | tagMap (m : List (String × Option String))
deriving DecidableEq, Repr

/-- The `ignore` prop: selector string or tag map (shared shape with
`findUp`'s argument), or a user predicate, identified by an id interpreted
through the environment. -/
inductive IgnoreRule where
  | mos (r : MapOrSelectors)
  | fn (pid : Nat)
deriving DecidableEq, Repr

/-- JavaScript truthiness of an `ignore` value, as used by
`if (eventSourceNode && ignoreMapOrFn)`: an empty selector string is falsy;
maps (objects) and functions are truthy. -/
def IgnoreRule.truthy : IgnoreRule → Bool
  | .mos (.selectors s) => !s.isEmpty
  | _ => true

/-- Host platform primitives (out of scope per the spec, §1): CSS selector
matching against an element, document-wide id lookup, and application of a
user-supplied ignore predicate identified by `pid`. -/
structure Env where
  /-- `el.matches(selector)` (the name `matches` is a Lean keyword). -/
  matchesSel : Element → String → Bool
  getElementById : String → Option Element
  applyPred : Nat → Element → Bool

/-- JS object-key lookup in the tag map: `some v` when the tag is a key
(`v = none` modelling a `null`/`undefined` mapped value), `none` otherwise. -/
def lookupTag : List (String × Option String) → String → Option (Option String)
  | [], _ => none
  | (k, v) :: rest, tag => if k = tag then some v else lookupTag rest tag

/-- `findUp` (OutsideClickListener.tsx lines 45-63): walk upward from `el`;
at each node test the rule (selector match, or tag-key membership with an
optional refining selector); after a failed test, stop when the node `===`
`topNode` or has no parent, else recurse on the parent.  `topNode` is the
raw value delivered by `getNode`, so it may be `null` or a ref object,
neither of which is ever `===` to an element. -/
def findUp (env : Env) : Element → MapOrSelectors → JsValue → Bool
  | [], _, _ => false
  | nd :: rest, mapOrSelectors, topNode =>
    let tag := nd.tag.toLower
    let matched :=
      match mapOrSelectors with
      | .selectors s => env.matchesSel (nd :: rest) s
      | .tagMap m =>
        match lookupTag m tag with
        | some none => true
        | some (some sel) => env.matchesSel (nd :: rest) sel
        | none => false
    if matched then true
    else if topNode = JsValue.elem (nd :: rest) || rest.isEmpty then false
    else findUp env rest mapOrSelectors topNode

/-- `getNode` (lines 65-77).  Returns the resolved value together with the
list of `console.warn` messages it emits.  A string is looked up by id,
warning and yielding `null` when absent; an object whose `current` is an
`Element` yields that element; anything else is returned unchanged by the
`return node as Element` cast — in particular a ref object whose `current`
is `null` is returned as the ref object itself. -/
def getNode (env : Env) : NodeRef → JsValue × List String
  | .str s =>
    match env.getElementById s with
    | some el => (.elem el, [])
    | none => (.jsNull, ["HTML element with id=" ++ s ++ " not found."])
  | .ref (some el) => (.elem el, [])
  | .ref none => (.refObj none, [])
  | .elem e => (.elem e, [])

/-- A raw event: `target` is `some el` when `event.target instanceof Element`,
`none` otherwise (window, document, text node, ...). -/
structure Event where
  target : Option Element
deriving DecidableEq, Repr

/-- Observable side effects of one handler invocation, in order:
`event.stopPropagation()` and `onOutsideClick(event)`, each carrying the
event object it is applied to. -/
inductive Effect where
  | stopProp (ev : Event)
  | callback (ev : Event)
deriving DecidableEq, Repr

/-- The Notify tail shared by both notify sites (lines 133-134 and 140-141):
`stopPropagation && event.stopPropagation(); onOutsideClick(event);`. -/
def notifyEffects (stopPropagation : Bool) (ev : Event) : List Effect :=
  if stopPropagation then [.stopProp ev, .callback ev] else [.callback ev]

/-- Result of one handler invocation: the effects performed (`none` when the
invocation throws a `TypeError`, which happens before either notify site is
reached), plus the warnings printed along the way. -/
structure HandlerOut where
  result : Option (List Effect)
  warnings : List String
deriving DecidableEq, Repr

/-- The closure captured by `outsideClickHandler` (its `useCallback` deps plus
the mutable `ignoreRef` slot read at call time). -/
structure HandlerCfg where
  disabled : Bool
  stopPropagation : Bool
  topNode : Option NodeRef
  ignoreTopNode : Option NodeRef
  ignoreCurrent : Option IgnoreRule
deriving Repr

/-- The stop node handed to `findUp` for ignore matching (line 121):
`ignoreTopNode ? getNode(ignoreTopNode) : null`. -/
def resolveIgnoreStop (env : Env) (ignoreTopNode : Option NodeRef) :
    JsValue × List String :=
  match ignoreTopNode with
  | some nr => if nr.truthy then getNode env nr else (.jsNull, [])
  | none => (.jsNull, [])

/-- The ignore test of lines 118-121: a function rule is applied directly to
the source node; a selector/tag-map rule runs `findUp` from the source,
stopped by the resolved `ignoreTopNode`. -/
def isIgnored (env : Env) (rule : IgnoreRule) (ignoreTopNode : Option NodeRef)
    (src : Element) : Bool × List String :=
  match rule with
  | .fn pid => (env.applyPred pid src, [])
  | .mos m =>
    let stop := resolveIgnoreStop env ignoreTopNode
    (findUp env src m stop.1, stop.2)

/-- Lines 116-127 as a whole: the ignore block runs only when the current
`ignoreRef` value is present and truthy. -/
def ignoreStep (env : Env) (cfg : HandlerCfg) (src : Element) :
    Bool × List String :=
  match cfg.ignoreCurrent with
  | some r => if r.truthy then isIgnored env r cfg.ignoreTopNode src else (false, [])
  | none => (false, [])

/-- Lines 129-141, reached with a defined source that is neither inside the
watched node nor ignored.  With a truthy `topNode`: resolve it; an element
that contains the source notifies, an element that does not contain it (or a
`null` resolution) drops; a ref-object resolution is truthy but has no
`.contains` method, so line 132 throws a `TypeError`.  With no (or a falsy)
`topNode`, fall through to the unconditional notify of lines 140-141. -/
def scopeStep (env : Env) (cfg : HandlerCfg) (src : Element) (ev : Event)
    (w1 : List String) : HandlerOut :=
  match cfg.topNode with
  | some tn =>
    if tn.truthy then
      let r := getNode env tn
      match r.1 with
      | .elem n =>
        if contains n src then ⟨some (notifyEffects cfg.stopPropagation ev), w1 ++ r.2⟩
        else ⟨some [], w1 ++ r.2⟩
      | .jsNull => ⟨some [], w1 ++ r.2⟩
      | .refObj _ => ⟨none, w1 ++ r.2⟩
    else ⟨some (notifyEffects cfg.stopPropagation ev), w1⟩
  | none => ⟨some (notifyEffects cfg.stopPropagation ev), w1⟩

/-- `outsideClickHandler` (lines 105-144).  `selfNode` is
`selfNodeRef.current`.  When `event.target` is not an `Element`,
`eventSourceNode` is `undefined` and every block guarded by
`eventSourceNode && ...` (the inside check of line 112, the ignore block of
lines 117-127, and the scope block of lines 129-138) is skipped, so control
falls through to the unconditional notify of lines 140-141. -/
def outsideClickHandler (env : Env) (cfg : HandlerCfg) (selfNode : Option Element)
    (ev : Event) : HandlerOut :=
  if cfg.disabled then ⟨some [], []⟩ else
  match selfNode with
  | none => ⟨some [], []⟩
  | some selfEl =>
    match ev.target with
    | none => ⟨some (notifyEffects cfg.stopPropagation ev), []⟩
    | some src =>
      if contains selfEl src then ⟨some [], []⟩ else
      let ig := ignoreStep env cfg src
      if ig.1 then ⟨some [], ig.2⟩ else
      scopeStep env cfg src ev ig.2

/-! ## Subscription lifecycle (the two hooks of lines 105-161) -/

/-- The full prop set of the component (lines 82-92).  `onOutsideClick` is an
opaque function identified (for JavaScript `Object.is` identity) by a number;
`ignore`'s predicate variant likewise carries an id interpreted by `Env`. -/
structure Config where
  disabled : Bool
  onOutsideClick : Nat
  events : List String
  stopPropagation : Bool
  topNode : Option NodeRef
  ignore : Option IgnoreRule
  ignoreTopNode : Option NodeRef
  windowBlurAsOutsideClick : Bool
deriving DecidableEq, Repr

/-- The closure state `outsideClickHandler` sees on a render with props `c`:
its `useCallback` dependencies plus the `ignoreRef` slot, which is rewritten
to the current `ignore` prop on every render (line 95). -/
def Config.handlerCfg (c : Config) : HandlerCfg :=
  ⟨c.disabled, c.stopPropagation, c.topNode, c.ignoreTopNode, c.ignore⟩

/-- The `useCallback` dependency array of `outsideClickHandler` (line 143):
`[disabled, ignoreTopNode, onOutsideClick, stopPropagation, topNode]`.
React recreates the memoized handler exactly when this tuple changes. -/
def useCallbackDeps (c : Config) :
    Bool × Option NodeRef × Nat × Bool × Option NodeRef :=
  (c.disabled, c.ignoreTopNode, c.onOutsideClick, c.stopPropagation, c.topNode)

/-- The `useEffect` dependency array (line 161) is
`[outsideClickHandler, disabled, topNode]`; the effect (which detaches and
reattaches every listener, lines 150-158) re-runs between two renders exactly
when one of those entries changed, and the handler entry changes exactly when
`useCallbackDeps` changed. -/
def resubscribes (c c' : Config) : Bool :=
  decide (useCallbackDeps c ≠ useCallbackDeps c')
    || decide (c.disabled ≠ c'.disabled)
    || decide (c.topNode ≠ c'.topNode)

/-- Lines 148 and 153: when disabled the effect attaches nothing and returns
early; otherwise the window `blur` listener is attached iff
`windowBlurAsOutsideClick`, independently of how (or whether) the `topNode`
target resolves. -/
def blurListenerAttached (c : Config) : Bool :=
  !c.disabled && c.windowBlurAsOutsideClick

/-! ## The spec's reading of the ancestor walk (§4.2), for claim C5 -/

/-- Following the spec's words (§4.2): the single-node rule test — a selector
rule tests the node against the selector; a tag-map rule tests whether the
node's tag is a key of the map and, when the mapped value is non-null,
additionally tests the node against that value as a refining selector. -/
def nodeSatisfies (env : Env) (rule : MapOrSelectors) : Element → Bool
  | [] => false
  | nd :: rest =>
    match rule with
    | .selectors s => env.matchesSel (nd :: rest) s
    | .tagMap m =>
      match lookupTag m nd.tag.toLower with
      | some none => true
      | some (some sel) => env.matchesSel (nd :: rest) sel
      | none => false

/-- Following the spec's words (§4.2): the chain of nodes visited by the
ancestor walk — the start node, then each parent in turn, terminating after
the stop node (when it lies on the chain) or after a parentless node. -/
def upChain : Element → JsValue → List Element
  | [], _ => []
  | nd :: rest, stop =>
    (nd :: rest) ::
      (if stop = JsValue.elem (nd :: rest) || rest.isEmpty then []
       else upChain rest stop)

/-! ## Concrete fixtures

A small document: `body` at the root; a `div` "panel" containing the watched
`div` and a sibling `span`; a second `span` directly under `body`. -/

def bodyEl : Element := [⟨0, "body"⟩]

def panelEl : Element := [⟨1, "div"⟩, ⟨0, "body"⟩]

def watchedEl : Element := [⟨2, "div"⟩, ⟨1, "div"⟩, ⟨0, "body"⟩]

def siblingEl : Element := [⟨3, "span"⟩, ⟨1, "div"⟩, ⟨0, "body"⟩]

def farEl : Element := [⟨4, "span"⟩, ⟨0, "body"⟩]

/-- An inert host environment: no selector matches, no id resolves, every
user predicate returns false. -/
def envEx : Env := ⟨fun _ _ => false, fun _ => none, fun _ _ => false⟩

/-- A host environment where id `panel` resolves to `panelEl` and every user
predicate returns true. -/
def envEx2 : Env :=
  ⟨fun _ _ => false,
   fun s => if s = "panel" then some panelEl else none,
   fun _ _ => true⟩

/-! ## Theorems -/

/-- C5: the ancestor matcher `findUp` returns true iff some node on the chain
from the start node upward — up to and including the stop node when it lies on
the chain, otherwise up to the last parentless node — satisfies the rule: a
selector rule by matching the node against the selector, a tag-map rule by the
node's lowercased tag being a key of the map and, when the mapped value is
non-null, the node also matching that value as a refining selector. -/
theorem findUp_chain_characterization (env : Env) (rule : MapOrSelectors)
    (stop : JsValue) (el : Element) :
    findUp env el rule stop = (upChain el stop).any (nodeSatisfies env rule) := by
  induction el with
  | nil => rfl
  | cons nd rest ih =>
    have key : ∀ (M C A : Bool) (l : List Element),
        A = l.any (nodeSatisfies env rule) →
        (if M = true then true else if C = true then false else A)
          = (M || (if C = true then ([] : List Element) else l).any
              (nodeSatisfies env rule)) := by
      intro M C A l hA
      cases M
      · cases C <;> simp [hA]
      · simp
    simp only [findUp, upChain, List.any_cons]
    exact key _ _ _ _ ih

/-- Helper for the effect-discipline theorem: every run of the scope block
performs no effect, throws, or performs exactly the notify tail. -/
theorem scopeStep_result_cases (env : Env) (cfg : HandlerCfg) (src : Element)
    (ev : Event) (w1 : List String) :
    (scopeStep env cfg src ev w1).result = none
    ∨ (scopeStep env cfg src ev w1).result = some []
    ∨ (scopeStep env cfg src ev w1).result
        = some (notifyEffects cfg.stopPropagation ev) := by
  cases htn : cfg.topNode with
  | none => simp [scopeStep, htn]
  | some tn =>
    cases htr : tn.truthy with
    | false => simp [scopeStep, htn, htr]
    | true =>
      cases hv : (getNode env tn).1 with
      | elem n =>
        cases hc : contains n src <;> simp [scopeStep, htn, htr, hv, hc]
      | jsNull => simp [scopeStep, htn, htr, hv]
      | refObj c => simp [scopeStep, htn, htr, hv]

/-- C7: on every invocation the handler performs either no observable effect
(a Drop, or a thrown `TypeError`, `result = none`, which aborts before either
notify site is reached) or exactly the effect sequence
`notifyEffects stopPropagation ev` — with `stopPropagation` enabled that is
`[stopProp ev, callback ev]`: propagation of the raw event is stopped first,
then the callback is invoked, synchronously, with the same original event
object, and exactly once; with it disabled, `[callback ev]`.  In particular
the callback runs at most once per raw event: the two textual notify sites
(lines 133-134 and 140-141) never both run. -/
theorem handler_effect_discipline (env : Env) (cfg : HandlerCfg)
    (selfNode : Option Element) (ev : Event) :
    (outsideClickHandler env cfg selfNode ev).result = none
    ∨ (outsideClickHandler env cfg selfNode ev).result = some []
    ∨ (outsideClickHandler env cfg selfNode ev).result
        = some (notifyEffects cfg.stopPropagation ev) := by
  cases hd : cfg.disabled with
  | true => simp [outsideClickHandler, hd]
  | false =>
    cases selfNode with
    | none => simp [outsideClickHandler, hd]
    | some selfEl =>
      cases htgt : ev.target with
      | none => simp [outsideClickHandler, hd, htgt]
      | some src =>
        cases hc : contains selfEl src with
        | true => simp [outsideClickHandler, hd, htgt, hc]
        | false =>
          cases hig : (ignoreStep env cfg src).1 with
          | true => simp [outsideClickHandler, hd, htgt, hc, hig]
          | false =>
            have := scopeStep_result_cases env cfg src ev
              (ignoreStep env cfg src).2
            simpa [outsideClickHandler, hd, htgt, hc, hig] using this

/-- C1 counterexample: engine enabled, watched node attached, a scope region
configured, and an event whose originating target is not a tree node
(`target = none`, e.g. the document or the window).  The claim says the
classifier Drops; the code instead falls through every source-guarded check
and Notifies, stopping propagation and invoking the callback. -/
theorem nonElementTarget_notifies_counterexample :
    (outsideClickHandler envEx ⟨false, true, some (.elem panelEl), none, none⟩
        (some watchedEl) ⟨none⟩).result
      = some [Effect.stopProp ⟨none⟩, Effect.callback ⟨none⟩] := by decide

/-- C1 amended: for every delivered event whose originating target is not a
tree node, with the engine enabled and the WatchedNode non-null, classification
yields Notify — the inside / ignore / scope checks are all guarded by
`eventSourceNode && ...` and are skipped, so the callback is invoked (with
propagation stopped when configured), regardless of any scope or ignore
configuration.  This fall-through is precisely the path window-blur events
take. -/
theorem nonElementTarget_notifies (env : Env) (cfg : HandlerCfg)
    (selfEl : Element) (ev : Event)
    (hdis : cfg.disabled = false) (htgt : ev.target = none) :
    (outsideClickHandler env cfg (some selfEl) ev).result
      = some (notifyEffects cfg.stopPropagation ev) := by
  simp [outsideClickHandler, hdis, htgt]

/-- Witness for the amended C1 at a concrete input. -/
theorem nonElementTarget_notifies_witness :
    (⟨false, true, some (.elem panelEl), none, none⟩ : HandlerCfg).disabled = false
    ∧ (⟨none⟩ : Event).target = none
    ∧ (outsideClickHandler envEx ⟨false, true, some (.elem panelEl), none, none⟩
        (some watchedEl) ⟨none⟩).result
      = some (notifyEffects true ⟨none⟩) :=
  ⟨rfl, rfl,
    nonElementTarget_notifies envEx ⟨false, true, some (.elem panelEl), none, none⟩
      watchedEl ⟨none⟩ rfl rfl⟩

/-- C10: window blur events reach the same handler as pointer events, so for a
blur event delivered while the engine is enabled and the watched node is
non-null, with `stopPropagation` at its default `true`, the handler calls
`stopPropagation()` on the blur event itself before invoking the callback —
the propagation-stop side effect is not limited to pointer/touch events. -/
theorem blur_stopPropagation_before_callback (env : Env) (c : Config)
    (selfEl : Element) (ev : Event)
    (hatt : blurListenerAttached c = true)
    (hstop : c.stopPropagation = true) (htgt : ev.target = none) :
    (outsideClickHandler env c.handlerCfg (some selfEl) ev).result
      = some [Effect.stopProp ev, Effect.callback ev] := by
  have hdis : c.disabled = false := by
    cases hd : c.disabled
    · rfl
    · simp [blurListenerAttached, hd] at hatt
  simp [outsideClickHandler, Config.handlerCfg, notifyEffects, hdis, hstop, htgt]

/-- Witness for C10 at a concrete input. -/
theorem blur_stopPropagation_before_callback_witness :
    blurListenerAttached
        ⟨false, 0, ["mousedown", "touchstart"], true, none, none, none, true⟩ = true
    ∧ (⟨false, 0, ["mousedown", "touchstart"], true, none, none, none, true⟩
        : Config).stopPropagation = true
    ∧ (⟨none⟩ : Event).target = none
    ∧ (outsideClickHandler envEx
        (Config.handlerCfg
          ⟨false, 0, ["mousedown", "touchstart"], true, none, none, none, true⟩)
        (some watchedEl) ⟨none⟩).result
      = some [Effect.stopProp ⟨none⟩, Effect.callback ⟨none⟩] :=
  ⟨rfl, rfl, rfl,
    blur_stopPropagation_before_callback envEx
      ⟨false, 0, ["mousedown", "touchstart"], true, none, none, none, true⟩
      watchedEl ⟨none⟩ rfl rfl rfl⟩

/-- C2: for an event whose source is a tree node outside the watched node and
not ignored, with a (truthy) `topNode` configured: a `null` resolution Drops;
a resolved node that does not contain the source Drops; a resolved node that
contains the source Notifies. -/
theorem scope_classification (env : Env) (cfg : HandlerCfg)
    (selfEl src : Element) (ev : Event) (tn : NodeRef)
    (hdis : cfg.disabled = false)
    (htgt : ev.target = some src)
    (hin : contains selfEl src = false)
    (hig : (ignoreStep env cfg src).1 = false)
    (htn : cfg.topNode = some tn)
    (htr : tn.truthy = true) :
    ((getNode env tn).1 = JsValue.jsNull →
        (outsideClickHandler env cfg (some selfEl) ev).result = some [])
    ∧ (∀ n : Element, (getNode env tn).1 = JsValue.elem n →
        contains n src = false →
        (outsideClickHandler env cfg (some selfEl) ev).result = some [])
    ∧ (∀ n : Element, (getNode env tn).1 = JsValue.elem n →
        contains n src = true →
        (outsideClickHandler env cfg (some selfEl) ev).result
          = some (notifyEffects cfg.stopPropagation ev)) := by
  refine ⟨fun h => ?_, fun n h hc => ?_, fun n h hc => ?_⟩
  · simp [outsideClickHandler, scopeStep, hdis, htgt, hin, hig, htn, htr, h]
  · simp [outsideClickHandler, scopeStep, hdis, htgt, hin, hig, htn, htr, h, hc]
  · simp [outsideClickHandler, scopeStep, hdis, htgt, hin, hig, htn, htr, h, hc]

/-- Witness for C2: id `panel` resolves to `panelEl`, which contains the
sibling source, so the third branch Notifies. -/
theorem scope_classification_witness :
    (⟨false, true, some (.str "panel"), none, none⟩ : HandlerCfg).disabled = false
    ∧ (⟨some siblingEl⟩ : Event).target = some siblingEl
    ∧ contains watchedEl siblingEl = false
    ∧ (ignoreStep envEx2 ⟨false, true, some (.str "panel"), none, none⟩
        siblingEl).1 = false
    ∧ (⟨false, true, some (.str "panel"), none, none⟩ : HandlerCfg).topNode
        = some (.str "panel")
    ∧ (NodeRef.str "panel").truthy = true
    ∧ (((getNode envEx2 (.str "panel")).1 = JsValue.jsNull →
        (outsideClickHandler envEx2 ⟨false, true, some (.str "panel"), none, none⟩
          (some watchedEl) ⟨some siblingEl⟩).result = some [])
      ∧ (∀ n : Element, (getNode envEx2 (.str "panel")).1 = JsValue.elem n →
          contains n siblingEl = false →
          (outsideClickHandler envEx2 ⟨false, true, some (.str "panel"), none, none⟩
            (some watchedEl) ⟨some siblingEl⟩).result = some [])
      ∧ (∀ n : Element, (getNode envEx2 (.str "panel")).1 = JsValue.elem n →
          contains n siblingEl = true →
          (outsideClickHandler envEx2 ⟨false, true, some (.str "panel"), none, none⟩
            (some watchedEl) ⟨some siblingEl⟩).result
            = some (notifyEffects true ⟨some siblingEl⟩))) :=
  ⟨rfl, rfl, by decide, by decide, rfl, by decide,
    scope_classification envEx2 ⟨false, true, some (.str "panel"), none, none⟩
      watchedEl siblingEl ⟨some siblingEl⟩ (.str "panel")
      rfl rfl (by decide) (by decide) rfl (by decide)⟩

/-- C3 counterexample: `topNode` is the id string `missing`, which resolves to
nothing.  The claim says the engine then behaves as if no scope were
configured, so this outside, non-ignored event should Notify; the code emits
the warning but performs no effect (Drop), while the identical configuration
without a scope does Notify. -/
theorem unresolvable_scope_drops_counterexample :
    outsideClickHandler envEx ⟨false, true, some (.str "missing"), none, none⟩
        (some watchedEl) ⟨some farEl⟩
      = ⟨some [], ["HTML element with id=missing not found."]⟩
    ∧ (outsideClickHandler envEx ⟨false, true, none, none, none⟩
        (some watchedEl) ⟨some farEl⟩).result
      = some [Effect.stopProp ⟨some farEl⟩, Effect.callback ⟨some farEl⟩] := by
  exact ⟨by decide, by decide⟩

/-- C3 amended: when the scope reference is an identifier string that does not
exist in the tree, a warning is emitted and the classifier Drops every event
with a defined source that is outside the watched node and not ignored —
scoping does not fall back to whole-document behavior; it behaves as an
unsatisfiable scope. -/
theorem unresolvable_scope_drops (env : Env) (cfg : HandlerCfg)
    (selfEl src : Element) (ev : Event) (s : String)
    (hdis : cfg.disabled = false)
    (htgt : ev.target = some src)
    (hin : contains selfEl src = false)
    (hig : ignoreStep env cfg src = (false, []))
    (htn : cfg.topNode = some (.str s))
    (hs : s.isEmpty = false)
    (hnone : env.getElementById s = none) :
    outsideClickHandler env cfg (some selfEl) ev
      = ⟨some [], ["HTML element with id=" ++ s ++ " not found."]⟩ := by
  simp [outsideClickHandler, scopeStep, getNode, NodeRef.truthy,
    hdis, htgt, hin, hig, htn, hs, hnone]

/-- Witness for the amended C3 at a concrete input. -/
theorem unresolvable_scope_drops_witness :
    (⟨false, true, some (.str "missing"), none, none⟩ : HandlerCfg).disabled = false
    ∧ (⟨some farEl⟩ : Event).target = some farEl
    ∧ contains watchedEl farEl = false
    ∧ ignoreStep envEx ⟨false, true, some (.str "missing"), none, none⟩ farEl
        = (false, [])
    ∧ (⟨false, true, some (.str "missing"), none, none⟩ : HandlerCfg).topNode
        = some (.str "missing")
    ∧ "missing".isEmpty = false
    ∧ envEx.getElementById "missing" = none
    ∧ outsideClickHandler envEx ⟨false, true, some (.str "missing"), none, none⟩
        (some watchedEl) ⟨some farEl⟩
      = ⟨some [], ["HTML element with id=missing not found."]⟩ :=
  ⟨rfl, rfl, by decide, by decide, rfl, by decide, rfl,
    unresolvable_scope_drops envEx ⟨false, true, some (.str "missing"), none, none⟩
      watchedEl farEl ⟨some farEl⟩ "missing"
      rfl rfl (by decide) (by decide) rfl (by decide) rfl⟩

/-- C4: an event whose source matches an active (truthy) ignore rule — a
predicate applied directly to the source, or a selector/tag-map rule applied
through `findUp` bounded by the resolved `ignoreTopNode` (unbounded when none),
which is what `isIgnored` performs — Drops, for every scope configuration
(`cfg.topNode` is arbitrary).  The warnings equal those of the ignore check
alone: the scope block, and in particular `getNode` on `topNode`, is never
evaluated, witnessing that the ignore check precedes the scope check. -/
theorem ignored_source_drops (env : Env) (cfg : HandlerCfg)
    (selfEl src : Element) (ev : Event) (r : IgnoreRule)
    (hdis : cfg.disabled = false)
    (htgt : ev.target = some src)
    (hin : contains selfEl src = false)
    (hr : cfg.ignoreCurrent = some r)
    (htr : r.truthy = true)
    (hig : (isIgnored env r cfg.ignoreTopNode src).1 = true) :
    (outsideClickHandler env cfg (some selfEl) ev).result = some []
    ∧ (outsideClickHandler env cfg (some selfEl) ev).warnings
        = (isIgnored env r cfg.ignoreTopNode src).2 := by
  constructor <;>
    simp [outsideClickHandler, ignoreStep, hdis, htgt, hin, hr, htr, hig]

/-- Witness for C4: a predicate ignore rule fires on the source while an
unresolvable scope id is configured; the event is dropped and no scope
warning is printed. -/
theorem ignored_source_drops_witness :
    (⟨false, true, some (.str "missing"), none, some (.fn 0)⟩
        : HandlerCfg).disabled = false
    ∧ (⟨some farEl⟩ : Event).target = some farEl
    ∧ contains watchedEl farEl = false
    ∧ (⟨false, true, some (.str "missing"), none, some (.fn 0)⟩
        : HandlerCfg).ignoreCurrent = some (.fn 0)
    ∧ (IgnoreRule.fn 0).truthy = true
    ∧ (isIgnored envEx2 (.fn 0) none farEl).1 = true
    ∧ (outsideClickHandler envEx2
        ⟨false, true, some (.str "missing"), none, some (.fn 0)⟩
        (some watchedEl) ⟨some farEl⟩).result = some []
    ∧ (outsideClickHandler envEx2
        ⟨false, true, some (.str "missing"), none, some (.fn 0)⟩
        (some watchedEl) ⟨some farEl⟩).warnings
      = (isIgnored envEx2 (.fn 0) none farEl).2 :=
  ⟨rfl, rfl, by decide, rfl, by decide, by decide,
    (ignored_source_drops envEx2
      ⟨false, true, some (.str "missing"), none, some (.fn 0)⟩
      watchedEl farEl ⟨some farEl⟩ (.fn 0)
      rfl rfl (by decide) rfl (by decide) (by decide)).1,
    (ignored_source_drops envEx2
      ⟨false, true, some (.str "missing"), none, some (.fn 0)⟩
      watchedEl farEl ⟨some farEl⟩ (.fn 0)
      rfl rfl (by decide) rfl (by decide) (by decide)).2⟩

/-- C6 counterexample: window-blur watching enabled, blur listener attached
(attachment does not consult the watched node), a blur event delivered while
the WatchedNode is null.  The claim says every window blur event results in
Notify unconditionally with no classification against the WatchedNode; the
handler instead drops it at the `disabled || !selfNodeRef.current` guard
(line 107): no effect is performed and the callback is not invoked. -/
theorem blur_notifies_counterexample :
    blurListenerAttached
        ⟨false, 0, ["mousedown", "touchstart"], true, none, none, none, true⟩ = true
    ∧ (outsideClickHandler envEx
        (Config.handlerCfg
          ⟨false, 0, ["mousedown", "touchstart"], true, none, none, none, true⟩)
        none ⟨none⟩).result = some [] := by
  exact ⟨by decide, by decide⟩

/-- C6 amended: with window-blur watching enabled (listener attached), a blur
event delivered while the engine is enabled and the WatchedNode is non-null
results in Notify with no classification against the ScopeRegion or the
IgnoreRule (both arbitrary here); the step-1 guard still applies, so a blur
delivered while the WatchedNode is null is dropped. -/
theorem blur_notifies (env : Env) (c : Config) (selfEl : Element) (ev : Event)
    (hatt : blurListenerAttached c = true) (htgt : ev.target = none) :
    (outsideClickHandler env c.handlerCfg (some selfEl) ev).result
      = some (notifyEffects c.stopPropagation ev) := by
  have hdis : c.disabled = false := by
    cases hd : c.disabled
    · rfl
    · simp [blurListenerAttached, hd] at hatt
  simp [outsideClickHandler, Config.handlerCfg, hdis, htgt]

/-- Witness for the amended C6: a scope region, an always-true ignore
predicate, and an unresolvable ignore scope are all configured, yet the blur
event still Notifies. -/
theorem blur_notifies_witness :
    blurListenerAttached
        ⟨false, 0, ["mousedown", "touchstart"], true, some (.elem panelEl),
          some (.fn 0), some (.str "missing"), true⟩ = true
    ∧ (⟨none⟩ : Event).target = none
    ∧ (outsideClickHandler envEx2
        (Config.handlerCfg
          ⟨false, 0, ["mousedown", "touchstart"], true, some (.elem panelEl),
            some (.fn 0), some (.str "missing"), true⟩)
        (some watchedEl) ⟨none⟩).result
      = some (notifyEffects true ⟨none⟩) :=
  ⟨by decide, rfl,
    blur_notifies envEx2
      ⟨false, 0, ["mousedown", "touchstart"], true, some (.elem panelEl),
        some (.fn 0), some (.str "missing"), true⟩
      watchedEl ⟨none⟩ (by decide) rfl⟩

/-- C8: the claim (and the function's declared type `Element | null`) says the
resolver never returns a value that is neither a node nor null.  For a ref
object whose captured `current` is null, `getNode` falls through both guards
and the `return node as Element` cast returns the ref object itself — neither
an element nor null — and a handler that then uses it as `topNode` throws a
`TypeError` at `node.contains(...)` (modelled as `result = none`). -/
theorem getNode_nullRef_bug :
    (getNode envEx (NodeRef.ref none)).1 = JsValue.refObj none
    ∧ (∀ e : Element, (getNode envEx (NodeRef.ref none)).1 ≠ JsValue.elem e)
    ∧ (getNode envEx (NodeRef.ref none)).1 ≠ JsValue.jsNull
    ∧ (outsideClickHandler envEx ⟨false, true, some (.ref none), none, none⟩
        (some watchedEl) ⟨some farEl⟩).result = none := by
  refine ⟨rfl, fun e => ?_, ?_, by decide⟩
  · simp [getNode]
  · simp [getNode]

/-- C9 counterexample: two prop sets identical in every field except
`ignoreTopNode`.  The claim says a change of only the IgnoreScopeRegion never
causes listeners to be detached and reattached; but `ignoreTopNode` is in the
handler's `useCallback` dependency array (line 143), the new handler identity
changes the `useEffect` dependency array (line 161), and the effect re-runs,
detaching and reattaching all listeners. -/
theorem ignoreTopNode_resubscribes_counterexample :
    (⟨false, 0, ["mousedown", "touchstart"], true, none, none, none, false⟩
        : Config).ignoreTopNode
      ≠ (⟨false, 0, ["mousedown", "touchstart"], true, none, none,
          some (.elem panelEl), false⟩ : Config).ignoreTopNode
    ∧ resubscribes
        ⟨false, 0, ["mousedown", "touchstart"], true, none, none, none, false⟩
        ⟨false, 0, ["mousedown", "touchstart"], true, none, none,
          some (.elem panelEl), false⟩ = true := by
  exact ⟨by decide, by decide⟩

/-- C9 amended: listener resubscription between two renders happens exactly
when the handler's `useCallback` dependency tuple — enabled state, `topNode`,
`ignoreTopNode`, the callback's identity, `stopPropagation` — changes (the
`useEffect` array adds only `disabled` and `topNode`, which are already in
that tuple).  A change of only the IgnoreRule (`ignore` prop) never causes
resubscription: it is absent from both arrays and is read through the mutable
`ignoreRef` slot; but a change of the IgnoreScopeRegion (`ignoreTopNode`)
does trigger resubscription.  (`events` and `windowBlurAsOutsideClick` are
likewise absent from both arrays, so changing them alone does not re-run the
effect either, shown here together with `ignore`.) -/
theorem resubscribes_iff_handler_deps_change (c c' : Config) :
    (resubscribes c c' = true ↔ useCallbackDeps c ≠ useCallbackDeps c')
    ∧ resubscribes c
        (Config.mk c.disabled c.onOutsideClick c'.events c.stopPropagation
          c.topNode c'.ignore c.ignoreTopNode c'.windowBlurAsOutsideClick)
      = false := by
  constructor
  · constructor
    · intro h
      simp only [resubscribes, Bool.or_eq_true, decide_eq_true_eq] at h
      rcases h with (h | h) | h
      · exact h
      · exact fun he => h (congrArg Prod.fst he)
      · exact fun he => h (congrArg (fun t => t.2.2.2.2) he)
    · intro h
      simp only [resubscribes, Bool.or_eq_true, decide_eq_true_eq]
      exact Or.inl (Or.inl h)
  · simp [resubscribes, useCallbackDeps]

end OutsideClick
